import Mathlib

/-!
Verification of the customer-support routing core: keyword scorer,
intent router, the three responders and the coordinator, shallowly
embedded from the TypeScript source. The source accumulates scores as
IEEE-754 doubles (`score += 0.2; score += 0.1`). Two models of the
scorer are used. The threshold guards of the router — "score > 0.1" for
continuity and "best score < 0.2" for the fallback — and the scorer's
stated bounds are robust to the double rounding, because a nonzero
accumulation is always at least the double 0.2; for those properties
scores are modelled as exact natural numbers in twentieths of the unit
scale (2 = 0.1, 4 = 0.2, 10 = 0.5, 18 = 0.9, 19 = 0.95, 20 = 1.0). The
sort's tie behaviour is NOT robust — sums that agree in exact
arithmetic can differ as doubles (0.2+0.1+0.2+0.1 accumulates to the
double 0.6 while 0.2+0.2+0.2 accumulates to 0.6000000000000001) — so
the classification is additionally modelled bit-exactly: every double
the scorer can reach is an integer multiple of 2⁻⁵⁶, and `fpAdd` below
implements binary64 round-to-nearest-even addition on numerators in
that fixed-point scale. The external data tools are parameters (records
of pure functions), and each responder additionally returns the trace
of tool calls it performed so that frame properties can be stated.
-/

/-- ASCII lower-casing of a string, modelling `message.toLowerCase()`. -/
def jsLower (s : String) : String := String.mk (s.data.map Char.toLower)

/-- Substring containment, modelling JavaScript `hay.includes(needle)`
(case-sensitive). -/
def jsIncludes (needle hay : List Char) : Bool :=
  (List.range (hay.length + 1)).any fun i => needle.isPrefixOf (hay.drop i)

/-- A regex word character `\w`: ASCII alphanumeric or underscore. -/
def isWordChar (c : Char) : Bool := c.isAlphanum || c == '_'

/-- Whether position `i` of `hay` holds a word character (out of range
counts as non-word). -/
def wordAt (hay : List Char) (i : Nat) : Bool :=
  match hay.get? i with
  | some c => isWordChar c
  | none => false

/-- A regex word boundary `\b` at position `p`: exactly one of the two
adjacent positions holds a word character. -/
def boundaryAt (hay : List Char) (p : Nat) : Bool :=
  (match p with
   | 0 => false
   | q + 1 => wordAt hay q) != wordAt hay p

/-- Case-insensitive prefix test (ASCII case folding). -/
def ciPrefixOf : List Char → List Char → Bool
  | [], _ => true
  | _ :: _, [] => false
  | a :: as, b :: bs => (a.toLower == b.toLower) && ciPrefixOf as bs

/-- Test of the regex `\bkeyword\b` with the `i` flag against `hay`:
some case-insensitive occurrence of the keyword flanked by word
boundaries. -/
def wbTest (keyword hay : List Char) : Bool :=
  (List.range (hay.length + 1)).any fun i =>
    ciPrefixOf keyword (hay.drop i) && boundaryAt hay i &&
      boundaryAt hay (i + keyword.length)

/-- An exact (case-sensitive) whole-word occurrence of `kw` in `hay`:
the keyword appears verbatim flanked by word boundaries. Used to state
the scorer contract. -/
def exactWholeWord (kw hay : List Char) : Bool :=
  (List.range (hay.length + 1)).any fun i =>
    kw.isPrefixOf (hay.drop i) && boundaryAt hay i &&
      boundaryAt hay (i + kw.length)

/-- A character that is not a regex line terminator (`.` in JavaScript
regexes matches anything except these). -/
def noLineTerm (c : Char) : Bool :=
  !(c == '\n' || c == '\r' || c == Char.ofNat 0x2028 || c == Char.ofNat 0x2029)

/-- Matcher for the tail of a pattern `lit₁.*lit₂.*…`: each literal in
turn, separated by gaps of non-line-terminator characters. -/
def chainRest : List (List Char) → List Char → Bool
  | [], _ => true
  | l :: ls, u =>
    (List.range (u.length + 1)).any fun k =>
      (u.take k).all noLineTerm && l.isPrefixOf (u.drop k) &&
        chainRest ls (u.drop (k + l.length))

/-- Unanchored test of a pattern `lit₁.*lit₂.*…` (literals joined by
`.*`) against `s`. -/
def chainMatch (lits : List (List Char)) (s : List Char) : Bool :=
  match lits with
  | [] => true
  | l :: ls =>
    (List.range (s.length + 1)).any fun i =>
      l.isPrefixOf (s.drop i) && chainRest ls (s.drop (i + l.length))

/-- Test of a regex alternation `c₁|c₂|…` where each alternative `cᵢ` is
a chain of literals joined by `.*`. The `i` flags of the source regexes
are handled by the callers, which pass lower-cased text and lower-case
literals. -/
def testChains (chains : List (List String)) (s : String) : Bool :=
  chains.any fun ch => chainMatch (ch.map String.data) s.data

/-- Test of an anchored alternation `^p₁|^p₂|…` of literal prefixes. -/
def startsWithAny (ps : List String) (m : String) : Bool :=
  ps.any fun p => p.data.isPrefixOf m.data

/-- Leftmost match of the pattern `TAG\d{n}` (case-insensitive literal
tag followed by exactly `nd` digits), returning the matched slice of the
subject, as `message.match(/ORD-\d{3}/i)` does. -/
def firstMatchFixed (tag : List Char) (nd : Nat) (s : List Char) : Option (List Char) :=
  (List.range s.length).findSome? fun i =>
    let t := s.drop i
    if ciPrefixOf tag t && ((t.drop tag.length).take nd).length == nd &&
        ((t.drop tag.length).take nd).all Char.isDigit then
      some (t.take (tag.length + nd))
    else none

/-- Leftmost match of the pattern `TAG\d+` (case-insensitive literal tag
followed by one or more digits, greedy), returning the matched slice. -/
def firstMatchPlus (tag : List Char) (s : List Char) : Option (List Char) :=
  (List.range s.length).findSome? fun i =>
    let t := s.drop i
    if ciPrefixOf tag t then
      let ds := (t.drop tag.length).takeWhile Char.isDigit
      if ds.length > 0 then some (t.take (tag.length + ds.length)) else none
    else none

/-- `message.match(/ORD-\d{3}/i)` of the order agent. -/
def firstMatchORD (s : String) : Option String :=
  match firstMatchFixed "ORD-".data 3 s.data with
  | some cs => some (String.mk cs)
  | none => none

/-- `message.match(/REF-\d+/i)` / `message.match(/INV-\d+/i)` of the
billing agent, with the tag as a parameter. -/
def firstMatchIdPlus (tag : String) (s : String) : Option String :=
  match firstMatchPlus tag.data s.data with
  | some cs => some (String.mk cs)
  | none => none

/-- JavaScript `x || dflt` on a possibly-absent string: the default is
used when the string is absent or empty (falsy). -/
def jsOr (v : Option String) (dflt : String) : String :=
  match v with
  | some s => if s == "" then dflt else s
  | none => dflt

/-- JavaScript truthiness of a possibly-absent string. -/
def jsTruthy (o : Option String) : Bool :=
  match o with
  | some s => !(s == "")
  | none => false

/-- Date values are modelled as their locale-rendered strings, so
`new Date(x).toLocaleDateString()` is the identity in the model. -/
def toLocaleDateString (s : String) : String := s

/-- The categories of `enum AgentType` (ROUTER is the meta category). -/
inductive AgentType where
  | ROUTER
  | SUPPORT
  | ORDER
  | BILLING
deriving DecidableEq

/-- The string value of an `AgentType` enum member, as interpolated by
template literals. -/
def AgentType.toStr : AgentType → String
  | .ROUTER => "ROUTER"
  | .SUPPORT => "SUPPORT"
  | .ORDER => "ORDER"
  | .BILLING => "BILLING"

/-- `RouteDecision`: the routing verdict. The confidence is in
twentieths of the source's unit scale (18 = 0.9, 10 = 0.5, 19 = 0.95). -/
structure RouteDecision where
  agentType : AgentType
  confidence : ℕ
  reasoning : String
deriving DecidableEq

/-- A prior message of the conversation (only carried, never inspected
by the routing core). -/
structure ChatMessage where
  role : String
  content : String
  agentType : Option AgentType
deriving DecidableEq

/-- The free-form `metadata` record of the context, modelled by the only
key the core reads (`lastOrderNumber`). -/
structure ContextMetadata where
  lastOrderNumber : Option String
deriving DecidableEq

/-- `ConversationContext` as supplied by the caller. -/
structure ConversationContext where
  conversationId : String
  userId : String
  previousMessages : List ChatMessage
  agentType : AgentType
  metadata : Option ContextMetadata
deriving DecidableEq

/-- `AgentResponse` of a responder. The optional `toolCalls` field of
the source type is never set by any responder and is omitted; the tool
invocations are instead returned alongside the response by the embedded
handlers. -/
structure AgentResponse where
  content : String
  agentType : AgentType
  reasoning : Option String
deriving DecidableEq

/-- The order-category keyword list of `RouterAgentImpl`. -/
def orderKeywords : List String :=
  ["order", "tracking", "shipped", "delivery", "cancel", "modify",
   "order number", "ord-", "where is my", "when will", "arrival",
   "shipping", "delivery status", "track my"]

/-- The billing-category keyword list of `RouterAgentImpl` (the source
lists "invoice" twice; the duplicate is kept). -/
def billingKeywords : List String :=
  ["payment", "refund", "invoice", "charge", "bill", "money",
   "subscription", "credit card", "pay", "transaction", "price",
   "invoice", "receipt", "cost", "fee"]

/-- The support-category keyword list of `RouterAgentImpl`. -/
def supportKeywords : List String :=
  ["help", "question", "problem", "issue", "faq", "how to",
   "support", "account", "login", "password", "reset",
   "return", "exchange", "warranty", "product"]

/-- `RouterAgentImpl.calculateScore`: 0.2 (= 4 twentieths) per keyword
present as a substring, a further 0.1 (= 2 twentieths) when the keyword
also matches at word boundaries, clamped to 1.0 (= 20 twentieths). -/
def calculateScore (message : String) (keywords : List String) : ℕ :=
  min
    (keywords.foldl
      (fun score keyword =>
        if jsIncludes keyword.data message.data then
          score + 4 + (if wbTest keyword.data message.data then 2 else 0)
        else score)
      0)
    20

/-- The three keyword lists of the router. They are private instance
fields in the source; making them a parameter lets independence from
the unused lists be stated, and `route` below fixes them to the source
values. -/
structure RouterKeywords where
  order : List String
  billing : List String
  support : List String

/-- The source keyword configuration. -/
def defaultKeywords : RouterKeywords :=
  ⟨orderKeywords, billingKeywords, supportKeywords⟩

/-- The keyword list a configuration assigns to a category (the meta
category has none). -/
def keywordsFor (cfg : RouterKeywords) : AgentType → List String
  | .ORDER => cfg.order
  | .BILLING => cfg.billing
  | .SUPPORT => cfg.support
  | .ROUTER => []

/-- `RouterAgentImpl.isRelatedToAgent`: the category keyword score of
the lower-cased message exceeds 0.1 (= 2 twentieths); false for the
meta category, the switch default. -/
def isRelatedToAgent (cfg : RouterKeywords) (message : String) (agentType : AgentType) : Bool :=
  let messageLower := jsLower message
  match agentType with
  | .ORDER => decide (calculateScore messageLower cfg.order > 2)
  | .BILLING => decide (calculateScore messageLower cfg.billing > 2)
  | .SUPPORT => decide (calculateScore messageLower cfg.support > 2)
  | .ROUTER => false

/-- One step of a stable descending insertion sort on scored
categories. -/
def sortInsertDesc (x : AgentType × ℕ) : List (AgentType × ℕ) → List (AgentType × ℕ)
  | [] => [x]
  | y :: ys => if y.2 ≤ x.2 then x :: y :: ys else y :: sortInsertDesc x ys

/-- Stable descending sort by score, modelling
`scores.sort((a, b) => b.score - a.score)` (JavaScript array sort is
stable, so tied scores keep the original order). -/
def sortByScoreDesc : List (AgentType × ℕ) → List (AgentType × ℕ)
  | [] => []
  | x :: xs => sortInsertDesc x (sortByScoreDesc xs)

/-- The fresh-classification tail of `RouterAgentImpl.route`: score the
three categories, sort descending, fall back to SUPPORT below 0.2
(= 4 twentieths), otherwise return the winner capped at 0.95
(= 19 twentieths). -/
def freshClassify (cfg : RouterKeywords) (messageLower : String) : RouteDecision :=
  let orderScore := calculateScore messageLower cfg.order
  let billingScore := calculateScore messageLower cfg.billing
  let supportScore := calculateScore messageLower cfg.support
  let scores : List (AgentType × ℕ) :=
    [(.ORDER, orderScore), (.BILLING, billingScore), (.SUPPORT, supportScore)]
  let best := (sortByScoreDesc scores).headD (.SUPPORT, 0)
  if best.2 < 4 then
    ⟨.SUPPORT, 10, "Low confidence - using support agent as fallback"⟩
  else
    ⟨best.1, min best.2 19, "Matched " ++ best.1.toStr ++ " keywords in message"⟩

/-- `RouterAgentImpl.route` with the keyword configuration explicit:
context continuity first (context present, category not the meta one,
message related to it, yielding confidence 0.9 = 18 twentieths), then
fresh classification. -/
def routeWith (cfg : RouterKeywords) (message : String) (context : Option ConversationContext) : RouteDecision :=
  let messageLower := jsLower message
  match context with
  | some ctx =>
    if ctx.agentType ≠ AgentType.ROUTER then
      if isRelatedToAgent cfg message ctx.agentType then
        ⟨ctx.agentType, 18, "Continuing with same agent based on conversation context"⟩
      else freshClassify cfg messageLower
    else freshClassify cfg messageLower
  | none => freshClassify cfg messageLower

/-- `RouterAgentImpl.route` with the source keyword lists. -/
def route (message : String) (context : Option ConversationContext) : RouteDecision :=
  routeWith defaultKeywords message context

/-- The category the continuity short-circuit fires on, if any: a helper
restating the guard of `routeWith` for use in hypotheses. -/
def continuityTarget (cfg : RouterKeywords) (message : String) (context : Option ConversationContext) : Option AgentType :=
  match context with
  | some ctx =>
    if ctx.agentType ≠ AgentType.ROUTER ∧ isRelatedToAgent cfg message ctx.agentType then
      some ctx.agentType
    else none
  | none => none

/-- `LLMRouterAgentImpl.route`. The external text-generation call and
the JSON parse of its reply are modelled by the parameter: `some d` is a
successful call whose reply parsed to the fields of `d`, `none` is any
call or parse failure (the catch branch). Tool data such as amounts in
the structures below is carried as the strings rendered into replies. -/
def llmRoute (llmOutcome : Option RouteDecision) : RouteDecision :=
  match llmOutcome with
  | some result => result
  | none => ⟨.SUPPORT, 10, "LLM routing failed, using fallback"⟩

/-- A `{success, data?, error?}` shaped result of an external data
tool. -/
structure ToolResult (α : Type) where
  success : Bool
  data : Option α
  error : Option String
deriving DecidableEq

/-- The refund record rendered by the billing agent. -/
structure RefundData where
  amount : String
  currency : String
  status : String
  reason : Option String
  createdAt : String
deriving DecidableEq

/-- One payment of the user's payment history. -/
structure Payment where
  orderNumber : String
  amount : String
  currency : String
  status : String
  createdAt : String
deriving DecidableEq

/-- The invoice record rendered by the billing agent. -/
structure InvoiceData where
  id : String
  orderNumber : String
  amount : String
  currency : String
  status : String
  paymentMethod : String
  createdAt : String
  invoiceUrl : Option String
deriving DecidableEq

/-- The subscription-info result of the billing tools. -/
structure SubscriptionInfo where
  success : Bool
  hasSubscription : Bool
  plan : String
  status : String
  nextBillingDate : Option String
deriving DecidableEq

/-- The external billing data tools consumed by `BillingAgentImpl`
(`processRefund` of the interface is never invoked by `handle` and is
omitted). -/
structure BillingToolFunctions where
  checkRefundStatus : String → ToolResult RefundData
  getPaymentHistory : String → List Payment
  getInvoiceDetails : String → ToolResult InvoiceData
  getSubscriptionInfo : String → SubscriptionInfo

/-- A record of one billing tool invocation. -/
inductive BillingCall where
  | checkRefundStatus (refundId : String)
  | getPaymentHistory (userId : String)
  | getInvoiceDetails (invoiceId : String)
  | getSubscriptionInfo (userId : String)
deriving DecidableEq

/-- `BillingAgentImpl.isRefundRequest`:
`/refund|money back|get.*money|when.*refund|refund.*status/i`. -/
def isRefundRequest (m : String) : Bool :=
  testChains [["refund"], ["money back"], ["get", "money"],
              ["when", "refund"], ["refund", "status"]] m

/-- `BillingAgentImpl.isInvoiceRequest`:
`/invoice|bill.*me|receipt|statement|download.*invoice/i`. -/
def isInvoiceRequest (m : String) : Bool :=
  testChains [["invoice"], ["bill", "me"], ["receipt"], ["statement"],
              ["download", "invoice"]] m

/-- `BillingAgentImpl.isPaymentIssue`:
`/payment.*fail|card.*declined|charge.*issue|won't.*charge|payment.*problem/i`. -/
def isPaymentIssue (m : String) : Bool :=
  testChains [["payment", "fail"], ["card", "declined"], ["charge", "issue"],
              ["won't", "charge"], ["payment", "problem"]] m

/-- `BillingAgentImpl.isSubscriptionQuery`:
`/subscription|monthly|annual.*plan|cancel.*subscription|change.*plan|upgrade.*plan/i`. -/
def isSubscriptionQuery (m : String) : Bool :=
  testChains [["subscription"], ["monthly"], ["annual", "plan"],
              ["cancel", "subscription"], ["change", "plan"],
              ["upgrade", "plan"]] m

/-- The refund-details reply of the billing agent. -/
def refundDetailContent (refundId : String) (d : RefundData) : String :=
  "Refund " ++ refundId ++ ":\n" ++
    "Amount: $" ++ d.amount ++ " " ++ d.currency ++ "\n" ++
    "Status: " ++ d.status ++ "\n" ++
    "Reason: " ++ jsOr d.reason "Not specified" ++ "\n" ++
    "Requested: " ++ toLocaleDateString d.createdAt

/-- The invoice-details reply of the billing agent. -/
def invoiceDetailContent (d : InvoiceData) : String :=
  "Invoice " ++ d.id ++ ":\n" ++
    "Order: " ++ d.orderNumber ++ "\n" ++
    "Amount: $" ++ d.amount ++ " " ++ d.currency ++ "\n" ++
    "Status: " ++ d.status ++ "\n" ++
    "Payment Method: " ++ d.paymentMethod ++ "\n" ++
    "Date: " ++ toLocaleDateString d.createdAt ++
    (if jsTruthy d.invoiceUrl then "\nDownload: " ++ jsOr d.invoiceUrl "" else "")

/-- One line of a payment-history listing. -/
def paymentLine (p : Payment) : String :=
  "• " ++ p.orderNumber ++ " - $" ++ p.amount ++ " " ++ p.currency ++ " - " ++
    p.status ++ " (" ++ toLocaleDateString p.createdAt ++ ")"

/-- The fixed payment-issue reply of the billing agent. -/
def paymentIssueContent : String :=
  "I'm sorry to hear you're experiencing a payment issue. Here are some common solutions:\n\n" ++
    "1. **Card Declined**: Try a different payment method or contact your bank\n" ++
    "2. **Pending Charges**: Some banks show temporary holds - these usually clear in 1-3 business days\n" ++
    "3. **Incorrect Information**: Double-check your billing address matches your card\n\n" ++
    "If the issue persists, please provide more details about the error you're seeing."

/-- The tail of the refund branch when no refund record was shown:
fetch the payment history and list refunded payments (or report none).
`calls0` is the trace accumulated before the fallthrough. -/
def billingRefundFallback (tools : BillingToolFunctions) (context : ConversationContext)
    (calls0 : List BillingCall) : AgentResponse × List BillingCall :=
  let payments := tools.getPaymentHistory context.userId
  let calls := calls0 ++ [BillingCall.getPaymentHistory context.userId]
  let refundedPayments := payments.filter fun p => p.status == "REFUNDED"
  if refundedPayments.length == 0 then
    (⟨"I don't see any refunds associated with your account. Would you like to request a refund for an order?",
      .BILLING, some "No refunds found"⟩, calls)
  else
    let refundList := String.intercalate "\n"
      (refundedPayments.map fun p => "• Order " ++ p.orderNumber ++ " - Refunded $" ++ p.amount)
    (⟨"Here are your refunded payments:\n\n" ++ refundList,
      .BILLING, some "Listed refunded payments"⟩, calls)

/-- The tail of the invoice branch when no invoice record was shown:
fetch the payment history and list the five most recent payments. -/
def billingInvoiceFallback (tools : BillingToolFunctions) (context : ConversationContext)
    (calls0 : List BillingCall) : AgentResponse × List BillingCall :=
  let payments := tools.getPaymentHistory context.userId
  let calls := calls0 ++ [BillingCall.getPaymentHistory context.userId]
  let invoiceList := String.intercalate "\n" ((payments.take 5).map paymentLine)
  (⟨"Your recent payment history:\n\n" ++ invoiceList ++
      "\n\nWould you like more details on any specific payment?",
    .BILLING, some "Listed payment history"⟩, calls)

/-- `BillingAgentImpl.handle`, paired with the trace of tool calls it
performs. -/
def billingHandle (tools : BillingToolFunctions) (message : String)
    (context : ConversationContext) : AgentResponse × List BillingCall :=
  let messageLower := jsLower message
  if isRefundRequest messageLower then
    match firstMatchIdPlus "REF-" message with
    | some refundId =>
      let refundStatus := tools.checkRefundStatus refundId
      match refundStatus.success, refundStatus.data with
      | true, some d =>
        (⟨refundDetailContent refundId d, .BILLING, some "Provided refund status"⟩,
          [.checkRefundStatus refundId])
      | _, _ => billingRefundFallback tools context [.checkRefundStatus refundId]
    | none => billingRefundFallback tools context []
  else if isInvoiceRequest messageLower then
    match firstMatchIdPlus "INV-" message with
    | some invoiceId =>
      let invoice := tools.getInvoiceDetails invoiceId
      match invoice.success, invoice.data with
      | true, some d =>
        (⟨invoiceDetailContent d, .BILLING, some "Provided invoice details"⟩,
          [.getInvoiceDetails invoiceId])
      | _, _ => billingInvoiceFallback tools context [.getInvoiceDetails invoiceId]
    | none => billingInvoiceFallback tools context []
  else if isPaymentIssue messageLower then
    (⟨paymentIssueContent, .BILLING, some "Provided payment issue solutions"⟩, [])
  else if isSubscriptionQuery messageLower then
    let subscription := tools.getSubscriptionInfo context.userId
    if subscription.success then
      if subscription.hasSubscription then
        (⟨"Your Subscription:\n" ++
            "Plan: " ++ subscription.plan ++ "\n" ++
            "Status: " ++ subscription.status ++ "\n" ++
            "Next Billing Date: " ++
              (match subscription.nextBillingDate with
               | some dstr => if dstr == "" then "N/A" else toLocaleDateString dstr
               | none => "N/A"),
          .BILLING, some "Provided subscription info"⟩,
          [.getSubscriptionInfo context.userId])
      else
        (⟨"I don't see an active subscription on your account. Would you like to learn about our subscription plans?",
          .BILLING, some "No subscription found"⟩,
          [.getSubscriptionInfo context.userId])
    else
      (⟨"I couldn't retrieve your subscription information. Please try again later.",
        .BILLING, some "Failed to retrieve subscription"⟩,
        [.getSubscriptionInfo context.userId])
  else
    let payments := tools.getPaymentHistory context.userId
    if payments.length == 0 then
      (⟨"I don't see any payment history for your account. Have you made any purchases?",
        .BILLING, some "No payment history found"⟩,
        [.getPaymentHistory context.userId])
    else
      let paymentList := String.intercalate "\n" ((payments.take 10).map paymentLine)
      (⟨"Your payment history:\n\n" ++ paymentList ++ "\n\nHow can I help you with billing?",
        .BILLING, some "Listed payment history"⟩,
        [.getPaymentHistory context.userId])

/-- One conversation summary of the support tools. -/
structure ConvSummary where
  id : String
  title : String
  agentType : String
  createdAt : String
  updatedAt : String
  lastMessage : Option String
deriving DecidableEq

/-- The conversation-history result of the support tools. -/
structure ConversationHistoryResult where
  success : Bool
  conversations : Option (List ConvSummary)
  error : Option String
deriving DecidableEq

/-- An FAQ search hit. -/
structure FAQResult where
  question : String
  answer : String
  category : String
  relevance : ℕ
deriving DecidableEq

/-- The external support data tools consumed by `SupportAgentImpl.handle`
(`getUserInfo` and `getRecentInteractions` of the interface are never
invoked by `handle` and are omitted). -/
structure SupportToolFunctions where
  searchFAQs : String → List FAQResult
  queryConversationHistory : String → Nat → ConversationHistoryResult

/-- A record of one support tool invocation. -/
inductive SupportCall where
  | searchFAQs (query : String)
  | queryConversationHistory (userId : String) (limit : Nat)
deriving DecidableEq

/-- `SupportAgentImpl.isGreeting`:
`/^hi|^hello|^hey|^good morning|^good afternoon|^good evening|^what's up/i`. -/
def isGreeting (m : String) : Bool :=
  startsWithAny ["hi", "hello", "hey", "good morning", "good afternoon",
                 "good evening", "what's up"] m

/-- `SupportAgentImpl.isReturnRequest`:
`/return|exchange|send.*back|get.*money.*back|not.*satisfied/i`. -/
def isReturnRequest (m : String) : Bool :=
  testChains [["return"], ["exchange"], ["send", "back"],
              ["get", "money", "back"], ["not", "satisfied"]] m

/-- `SupportAgentImpl.isAccountIssue`:
`/password|login|can't.*access|locked.*out|account.*issue|security|2fa/i`. -/
def isAccountIssue (m : String) : Bool :=
  testChains [["password"], ["login"], ["can't", "access"], ["locked", "out"],
              ["account", "issue"], ["security"], ["2fa"]] m

/-- `SupportAgentImpl.isContactRequest`:
`/talk.*human|speak.*agent|call.*you|email.*support|contact|phone.*number/i`. -/
def isContactRequest (m : String) : Bool :=
  testChains [["talk", "human"], ["speak", "agent"], ["call", "you"],
              ["email", "support"], ["contact"], ["phone", "number"]] m

/-- `SupportAgentImpl.isProductQuestion`:
`/product|specification|feature|size|color|dimension|weight|compatibility/i`. -/
def isProductQuestion (m : String) : Bool :=
  testChains [["product"], ["specification"], ["feature"], ["size"], ["color"],
              ["dimension"], ["weight"], ["compatibility"]] m

/-- The fixed greeting/menu reply of the support agent. -/
def greetingContent : String :=
  "👋 Hello! Welcome to our customer support. How can I help you today?\n\n" ++
    "I can assist you with:\n" ++
    "• Order status and tracking\n" ++
    "• Billing and payment questions\n" ++
    "• Refunds and invoices\n" ++
    "• General product questions\n" ++
    "• Account assistance\n\n" ++
    "Just describe what you need help with!"

/-- The FAQ reply of the support agent. -/
def faqContent (bestMatch : FAQResult) : String :=
  "**" ++ bestMatch.question ++ "**\n\n" ++ bestMatch.answer ++
    "\n\n*Category: " ++ bestMatch.category ++
    "*\n\nIs this helpful, or would you like more assistance?"

/-- The fixed return-policy reply of the support agent. -/
def returnPolicyContent : String :=
  "📦 **Return Policy**\n\n" ++
    "• 30-day return window for most items\n" ++
    "• Items must be in original condition with tags\n" ++
    "• Some items (personalized, final sale) cannot be returned\n\n" ++
    "To start a return:\n" ++
    "1. Go to your Order History\n" ++
    "2. Select the order and items to return\n" ++
    "3. Choose your return reason\n" ++
    "4. Print your return label\n\n" ++
    "Would you like help starting a return?"

/-- The fixed account-assistance reply of the support agent. -/
def accountIssueContent : String :=
  "🔐 **Account Assistance**\n\n" ++
    "I can help you with:\n" ++
    "• Password reset\n" ++
    "• Email address updates\n" ++
    "• Account security questions\n" ++
    "• Two-factor authentication\n\n" ++
    "What account issue are you experiencing?"

/-- The fixed contact-information reply of the support agent. -/
def contactContent : String :=
  "📞 **Contact Us**\n\n" ++
    "• **Email**: support@example.com\n" ++
    "• **Phone**: 1-800-EXAMPLE (9 AM - 6 PM EST)\n" ++
    "• **Live Chat**: Available on our website\n" ++
    "• **Help Center**: help.example.com\n\n" ++
    "For immediate assistance, I recommend live chat or phone support."

/-- The fixed product-question reply of the support agent. -/
def productQuestionContent : String :=
  "🔍 **Product Questions**\n\n" ++
    "I'd be happy to help with product questions! However, I don't have access to specific product details.\n\n" ++
    "For product information, please:\n" ++
    "1. Visit the product page on our website\n" ++
    "2. Check the product specifications and reviews\n" ++
    "3. Contact our sales team for detailed questions\n\n" ++
    "Is there anything else I can help you with?"

/-- The default support reply echoing the message and optional history
summary. -/
def defaultSupportContent (message contextInfo : String) : String :=
  "🤔 **I want to make sure I understand your question**\n\n" ++
    "Your message: \"" ++ message ++ "\"" ++ contextInfo ++ "\n\n" ++
    "I'm here to help! Here's what I can assist with:\n" ++
    "• 📦 Orders: Status, tracking, modifications\n" ++
    "• 💳 Billing: Payments, refunds, invoices\n" ++
    "• 🔧 Troubleshooting: Product issues, account problems\n" ++
    "• ❓ General: FAQs, policies, general questions\n\n" ++
    "Could you provide more details so I can better assist you?"

/-- `SupportAgentImpl.handle`, paired with the trace of tool calls it
performs. The FAQ search always runs first; the history query runs only
when neither the greeting nor an FAQ hit short-circuits. -/
def supportHandle (tools : SupportToolFunctions) (message : String)
    (context : ConversationContext) : AgentResponse × List SupportCall :=
  let messageLower := jsLower message
  let faqs := tools.searchFAQs message
  if isGreeting messageLower then
    (⟨greetingContent, .SUPPORT, some "Provided greeting and help options"⟩,
      [.searchFAQs message])
  else
    match faqs with
    | bestMatch :: _ =>
      (⟨faqContent bestMatch, .SUPPORT, some ("Matched FAQ: " ++ bestMatch.category)⟩,
        [.searchFAQs message])
    | [] =>
      let history := tools.queryConversationHistory context.userId 5
      let calls : List SupportCall :=
        [.searchFAQs message, .queryConversationHistory context.userId 5]
      if isReturnRequest messageLower then
        (⟨returnPolicyContent, .SUPPORT, some "Provided return policy information"⟩, calls)
      else if isAccountIssue messageLower then
        (⟨accountIssueContent, .SUPPORT, some "Provided account assistance options"⟩, calls)
      else if isContactRequest messageLower then
        (⟨contactContent, .SUPPORT, some "Provided contact information"⟩, calls)
      else if isProductQuestion messageLower then
        (⟨productQuestionContent, .SUPPORT, some "Provided product question guidance"⟩, calls)
      else
        let contextInfo :=
          match history.success, history.conversations with
          | true, some convs =>
            if convs.length > 0 then
              "\n\n*Based on our conversation history, I see you've asked about " ++
                toString convs.length ++ " topics before.*"
            else ""
          | _, _ => ""
        (⟨defaultSupportContent message contextInfo, .SUPPORT,
            some "Provided general assistance options"⟩, calls)

/-- The tracking result of the order tools. -/
structure TrackResult where
  success : Bool
  trackingNumber : Option String
  status : String
  trackingUrl : String
  error : Option String
deriving DecidableEq

/-- One line item of an order. -/
structure OrderItem where
  name : String
  quantity : String
  price : String
deriving DecidableEq

/-- The order record rendered by the order agent. -/
structure OrderData where
  status : String
  items : List OrderItem
  total : String
  currency : String
  createdAt : String
deriving DecidableEq

/-- The result of a cancellation or modification write. -/
structure WriteResult where
  success : Bool
  message : String
deriving DecidableEq

/-- One order of the user's order list. -/
structure OrderSummary where
  orderNumber : String
  status : String
  total : String
  createdAt : String
deriving DecidableEq

/-- The modifications record built by `parseModifications`, modelled by
its only possible key (the shipping-address note). -/
structure Modifications where
  shippingAddress : Option String
deriving DecidableEq

/-- The external order data tools consumed by `OrderAgentImpl`. -/
structure OrderToolFunctions where
  getOrderDetails : String → ToolResult OrderData
  getUserOrders : String → List OrderSummary
  trackOrder : String → TrackResult
  cancelOrder : String → String → WriteResult
  modifyOrder : String → Modifications → WriteResult

/-- A record of one order tool invocation. -/
inductive OrderCall where
  | getOrderDetails (orderNumber : String)
  | getUserOrders (userId : String)
  | trackOrder (orderNumber : String)
  | cancelOrder (orderNumber reason : String)
  | modifyOrder (orderNumber : String) (modifications : Modifications)
deriving DecidableEq

/-- `OrderAgentImpl.isTrackingRequest`:
`/track|tracking|where.*is.*my|delivery status|shipped/i`. -/
def isTrackingRequest (m : String) : Bool :=
  testChains [["track"], ["tracking"], ["where", "is", "my"],
              ["delivery status"], ["shipped"]] m

/-- `OrderAgentImpl.isStatusRequest`:
`/status|order.*detail|what.*order|check.*order/i`. -/
def isStatusRequest (m : String) : Bool :=
  testChains [["status"], ["order", "detail"], ["what", "order"],
              ["check", "order"]] m

/-- `OrderAgentImpl.isCancellationRequest`:
`/cancel|stop.*order|don't.*want|changed.*mind/i`. -/
def isCancellationRequest (m : String) : Bool :=
  testChains [["cancel"], ["stop", "order"], ["don't", "want"],
              ["changed", "mind"]] m

/-- `OrderAgentImpl.isModificationRequest`:
`/change.*address|modify.*order|update.*order|add.*item|remove.*item/i`. -/
def isModificationRequest (m : String) : Bool :=
  testChains [["change", "address"], ["modify", "order"], ["update", "order"],
              ["add", "item"], ["remove", "item"]] m

/-- `OrderAgentImpl.extractCancellationReason`: first matching reason
pattern wins; the `i` flags of the source patterns are modelled by
lower-casing the subject. -/
def extractCancellationReason (message : String) : String :=
  let ml := jsLower message
  if testChains [["changed", "mind"]] ml then "Customer changed their mind"
  else if testChains [["found", "better", "price"]] ml then "Found better price elsewhere"
  else if testChains [["no", "longer", "need"]] ml then "No longer need the item"
  else if testChains [["wrong", "item"]] ml then "Ordered wrong item"
  else "Customer requested cancellation"

/-- `OrderAgentImpl.parseModifications`: a shipping-address note if the
address-change pattern matches, otherwise an empty record. -/
def parseModifications (message : String) : Modifications :=
  if testChains [["change", "address"], ["update", "address"], ["new", "address"]]
      (jsLower message) then
    ⟨some "Address change requested - user needs to provide new address"⟩
  else ⟨none⟩

/-- `Object.keys(modifications).length === 0` of the source. -/
def modificationsEmpty (m : Modifications) : Bool := m.shippingAddress.isNone

/-- The clarification reply of the tracking branch when no order number
is available. -/
def trackingClarification : AgentResponse :=
  ⟨"I'd be happy to help you track your order. Could you please provide your order number (e.g., ORD-001)?",
    .ORDER, some "Requesting order number for tracking"⟩

/-- The clarification reply of the status branch when no order number is
available. -/
def statusClarification : AgentResponse :=
  ⟨"I can check your order status. Please provide your order number (e.g., ORD-001).",
    .ORDER, some "Requesting order number for status check"⟩

/-- The clarification reply of the cancellation branch when no order
number is available. -/
def cancelClarification : AgentResponse :=
  ⟨"I can help you cancel your order. Please provide your order number.",
    .ORDER, some "Requesting order number for cancellation"⟩

/-- The clarification reply of the modification branch when no order
number is available. -/
def modifyClarification : AgentResponse :=
  ⟨"I can help you modify your order. Please provide your order number first.",
    .ORDER, some "Requesting order number for modification"⟩

/-- The order-details reply of the order agent. -/
def orderDetailContent (orderNumber : String) (d : OrderData) : String :=
  "Order " ++ orderNumber ++ " Status: " ++ d.status ++ "\n\n" ++
    "Items: " ++ String.intercalate ", "
      (d.items.map fun i => i.name ++ " (x" ++ i.quantity ++ ") - $" ++ i.price) ++ "\n" ++
    "Total: $" ++ d.total ++ " " ++ d.currency ++ "\n" ++
    "Placed on: " ++ toLocaleDateString d.createdAt

/-- The order number used by `OrderAgentImpl.handle`: the first
`ORD-\d{3}` match of the message, else `context.metadata.lastOrderNumber`. -/
def resolveOrderNumber (message : String) (context : ConversationContext) : Option String :=
  match firstMatchORD message with
  | some m => some m
  | none =>
    match context.metadata with
    | some md => md.lastOrderNumber
    | none => none

/-- `OrderAgentImpl.handle`, paired with the trace of tool calls it
performs. -/
def orderHandle (tools : OrderToolFunctions) (message : String)
    (context : ConversationContext) : AgentResponse × List OrderCall :=
  let messageLower := jsLower message
  let orderNumber := resolveOrderNumber message context
  if isTrackingRequest messageLower then
    match orderNumber with
    | none => (trackingClarification, [])
    | some onum =>
      let tracking := tools.trackOrder onum
      if tracking.success && jsTruthy tracking.trackingNumber then
        (⟨"Your order " ++ onum ++ " is " ++ tracking.status ++
            ". Tracking number: " ++ jsOr tracking.trackingNumber "" ++
            ". Track it here: " ++ tracking.trackingUrl,
          .ORDER, some "Provided tracking information"⟩, [.trackOrder onum])
      else
        (⟨jsOr tracking.error "Unable to retrieve tracking information.",
          .ORDER, some "Tracking information not available"⟩, [.trackOrder onum])
  else if isStatusRequest messageLower then
    match orderNumber with
    | none => (statusClarification, [])
    | some onum =>
      let orderDetails := tools.getOrderDetails onum
      match orderDetails.success, orderDetails.data with
      | true, some d =>
        (⟨orderDetailContent onum d, .ORDER, some "Provided order details"⟩,
          [.getOrderDetails onum])
      | _, _ =>
        (⟨jsOr orderDetails.error "Unable to retrieve order details.",
          .ORDER, some "Order details not found"⟩, [.getOrderDetails onum])
  else if isCancellationRequest messageLower then
    match orderNumber with
    | none => (cancelClarification, [])
    | some onum =>
      let reason := extractCancellationReason message
      let cancellation := tools.cancelOrder onum reason
      (⟨cancellation.message, .ORDER,
          some ("Order " ++ (if cancellation.success then "cancelled" else "cancellation failed"))⟩,
        [.cancelOrder onum reason])
  else if isModificationRequest messageLower then
    match orderNumber with
    | none => (modifyClarification, [])
    | some onum =>
      let modifications := parseModifications message
      if modificationsEmpty modifications then
        (⟨"What would you like to modify about your order? You can change the shipping address or add/remove items.",
          .ORDER, some "Requesting modification details"⟩, [])
      else
        let result := tools.modifyOrder onum modifications
        (⟨result.message, .ORDER,
            some ("Modification " ++ (if result.success then "completed" else "failed"))⟩,
          [.modifyOrder onum modifications])
  else
    let orders := tools.getUserOrders context.userId
    if orders.length == 0 then
      (⟨"I don't see any orders associated with your account. Have you placed an order recently?",
        .ORDER, some "No orders found for user"⟩, [.getUserOrders context.userId])
    else
      let orderList := String.intercalate "\n"
        (orders.map fun o => "• " ++ o.orderNumber ++ " - " ++ o.status ++ " - $" ++
          o.total ++ " (" ++ toLocaleDateString o.createdAt ++ ")")
      (⟨"Here are your recent orders:\n\n" ++ orderList ++
          "\n\nWhich order would you like help with?",
        .ORDER, some "Listed user orders"⟩, [.getUserOrders context.userId])

/-- `AgentCoordinator.processMessage`: route, update the context's
category, dispatch to the matching responder (the meta category falls
through to the support responder, the switch default), then overwrite
the response's reasoning with the routing decision's. The router is a
parameter since either router implementation can be wired in. -/
def processMessage (router : String → Option ConversationContext → RouteDecision)
    (orderT : OrderToolFunctions) (billingT : BillingToolFunctions)
    (supportT : SupportToolFunctions)
    (message : String) (context : ConversationContext) : AgentResponse :=
  let routingDecision := router message (some context)
  let updatedContext := { context with agentType := routingDecision.agentType }
  let response :=
    match routingDecision.agentType with
    | .ORDER => (orderHandle orderT message updatedContext).1
    | .BILLING => (billingHandle billingT message updatedContext).1
    | .SUPPORT => (supportHandle supportT message updatedContext).1
    | .ROUTER => (supportHandle supportT message updatedContext).1
  { response with reasoning := some routingDecision.reasoning }

/-- Concrete billing tools whose refund lookup fails and whose payment
history is empty; used to exercise concrete branches. -/
def cexBillingTools : BillingToolFunctions :=
  ⟨fun _ => ⟨false, none, some "Refund not found"⟩, fun _ => [],
   fun _ => ⟨false, none, none⟩, fun _ => ⟨false, false, "", "", none⟩⟩

/-- Concrete order tools whose lookups fail and whose order list is
empty; used to exercise concrete branches. -/
def cexOrderTools : OrderToolFunctions :=
  ⟨fun _ => ⟨false, none, none⟩, fun _ => [],
   fun _ => ⟨false, none, "", "", none⟩,
   fun _ _ => ⟨false, "no"⟩, fun _ _ => ⟨false, "no"⟩⟩

/-- Concrete support tools with no FAQ hits and a failing history
query; used to exercise concrete branches. -/
def cexSupportTools : SupportToolFunctions :=
  ⟨fun _ => [], fun _ _ => ⟨false, none, none⟩⟩

/-- A concrete context in the billing category with no metadata. -/
def cexContext : ConversationContext := ⟨"conv-1", "user-1", [], .BILLING, none⟩

/-- A concrete context in the order category whose metadata carries a
previous order number. -/
def cexMetaContext : ConversationContext :=
  ⟨"conv-2", "user-2", [], .ORDER, some ⟨some "ORD-001"⟩⟩

/-- A concrete context in the order category with no metadata. -/
def cexOrderContext : ConversationContext := ⟨"conv-3", "user-3", [], .ORDER, none⟩

/-- A concrete router that always returns the meta category. -/
def cexMetaRouter : String → Option ConversationContext → RouteDecision :=
  fun _ _ => ⟨.ROUTER, 0, "meta"⟩

/-- A tiny concrete keyword configuration used to exercise the
configuration-generic router. -/
def cexKeywords : RouterKeywords := ⟨["track"], ["pay"], ["help"]⟩

/-- Floor of the base-2 logarithm for the numerators handled by `fpAdd`
(all below 2⁶⁴), written as a bounded fold so that the kernel can
evaluate it. -/
def fpLog2 (s : ℕ) : ℕ :=
  (List.range 64).foldl (fun acc k => if 2 ^ k ≤ s then k else acc) 0

/-- Binary64 (IEEE-754 double) addition of non-negative values, on
numerators in units of 2⁻⁵⁶: the exact sum is rounded to 53 significant
bits, ties to even. Every value the scorer can reach (0 and sums of the
doubles 0.2 and 0.1, all of magnitude between 0.1 and 5) is an integer
multiple of 2⁻⁵⁶ and far from overflow and subnormal range, so this is
exact on the reachable domain. -/
def fpAdd (x y : ℕ) : ℕ :=
  let s := x + y
  let l := fpLog2 s
  if l ≤ 52 then s
  else
    let u := 2 ^ (l - 52)
    let q := s / u
    let r := s % u
    let half := u / 2
    if r < half then q * u
    else if half < r then (q + 1) * u
    else if q % 2 = 0 then q * u else (q + 1) * u

/-- The double 0.2 in units of 2⁻⁵⁶. -/
def dbl02 : ℕ := 14411518807585588

/-- The double 0.1 in units of 2⁻⁵⁶. -/
def dbl01 : ℕ := 7205759403792794

/-- The double 1.0 in units of 2⁻⁵⁶. -/
def dbl1 : ℕ := 72057594037927936

/-- The double 0.5 in units of 2⁻⁵⁶. -/
def dbl05 : ℕ := 36028797018963968

/-- The double 0.9 in units of 2⁻⁵⁶. -/
def dbl09 : ℕ := 64851834634135144

/-- The double 0.95 in units of 2⁻⁵⁶. -/
def dbl095 : ℕ := 68454714336031536

/-- `RouterAgentImpl.calculateScore` modelled bit-exactly: the same
keyword matching as `calculateScore`, with the running total accumulated
by binary64 additions (`score += 0.2`, then `score += 0.1` on a
word-boundary match) and clamped by `Math.min(score, 1)`; the result is
the numerator of the computed double in units of 2⁻⁵⁶. -/
def calculateScoreFP (message : String) (keywords : List String) : ℕ :=
  min
    (keywords.foldl
      (fun score keyword =>
        if jsIncludes keyword.data message.data then
          let s1 := fpAdd score dbl02
          if wbTest keyword.data message.data then fpAdd s1 dbl01 else s1
        else score)
      0)
    dbl1

/-- `RouteDecision` of the bit-exact router model: the confidence is the
numerator of the computed double in units of 2⁻⁵⁶. -/
structure RouteDecisionFP where
  agentType : AgentType
  confidence : ℕ
  reasoning : String
deriving DecidableEq

/-- `RouterAgentImpl.isRelatedToAgent` over the bit-exact scorer (the
comparison with the double literal 0.1 compares numerators). -/
def isRelatedToAgentFP (message : String) (agentType : AgentType) : Bool :=
  let messageLower := jsLower message
  match agentType with
  | .ORDER => decide (calculateScoreFP messageLower orderKeywords > dbl01)
  | .BILLING => decide (calculateScoreFP messageLower billingKeywords > dbl01)
  | .SUPPORT => decide (calculateScoreFP messageLower supportKeywords > dbl01)
  | .ROUTER => false

/-- The fresh-classification tail of `RouterAgentImpl.route` over the
bit-exact scorer: the stable descending sort and its head, the fallback
below the double 0.2, and the cap at the double 0.95. Comparisons of
computed doubles coincide with comparisons of their numerators, so the
sort is shared with the exact model. -/
def freshClassifyFP (messageLower : String) : RouteDecisionFP :=
  let orderScore := calculateScoreFP messageLower orderKeywords
  let billingScore := calculateScoreFP messageLower billingKeywords
  let supportScore := calculateScoreFP messageLower supportKeywords
  let scores : List (AgentType × ℕ) :=
    [(.ORDER, orderScore), (.BILLING, billingScore), (.SUPPORT, supportScore)]
  let best := (sortByScoreDesc scores).headD (.SUPPORT, 0)
  if best.2 < dbl02 then
    ⟨.SUPPORT, dbl05, "Low confidence - using support agent as fallback"⟩
  else
    ⟨best.1, min best.2 dbl095, "Matched " ++ best.1.toStr ++ " keywords in message"⟩

/-- `RouterAgentImpl.route` over the bit-exact scorer, with the source
keyword lists. -/
def routeFP (message : String) (context : Option ConversationContext) : RouteDecisionFP :=
  let messageLower := jsLower message
  match context with
  | some ctx =>
    if ctx.agentType ≠ AgentType.ROUTER then
      if isRelatedToAgentFP message ctx.agentType then
        ⟨ctx.agentType, dbl09, "Continuing with same agent based on conversation context"⟩
      else freshClassifyFP messageLower
    else freshClassifyFP messageLower
  | none => freshClassifyFP messageLower

/-- The category the continuity short-circuit of `routeFP` fires on, if
any: a helper restating its guard for use in hypotheses. -/
def continuityTargetFP (message : String) (context : Option ConversationContext) : Option AgentType :=
  match context with
  | some ctx =>
    if ctx.agentType ≠ AgentType.ROUTER ∧ isRelatedToAgentFP message ctx.agentType then
      some ctx.agentType
    else none
  | none => none

/-- The weight one keyword contributes to the scorer's running total
(in twentieths): 4 for a substring occurrence, 6 when it also matches at
word boundaries, 0 otherwise. -/
def keywordWeight (kw message : String) : ℕ :=
  if jsIncludes kw.data message.data then
    (if wbTest kw.data message.data then 6 else 4)
  else 0

lemma scoreFold_eq (message : String) :
    ∀ (keywords : List String) (acc : ℕ),
      keywords.foldl
        (fun score keyword =>
          if jsIncludes keyword.data message.data then
            score + 4 + (if wbTest keyword.data message.data then 2 else 0)
          else score)
        acc
        = acc + (keywords.map fun kw => keywordWeight kw message).sum := by
  intro keywords
  induction keywords with
  | nil => intro acc; simp
  | cons kw rest ih =>
    intro acc
    simp only [List.foldl_cons, List.map_cons, List.sum_cons, ih, keywordWeight]
    by_cases h1 : jsIncludes kw.data message.data <;>
      by_cases h2 : wbTest kw.data message.data <;> simp [h1, h2] <;> omega

lemma ciPrefixOf_of_isPrefixOf :
    ∀ (kw t : List Char), kw.isPrefixOf t = true → ciPrefixOf kw t = true := by
  intro kw
  induction kw with
  | nil => intro t _; rfl
  | cons a as ih =>
    intro t h
    cases t with
    | nil => simp [List.isPrefixOf] at h
    | cons b bs =>
      simp only [List.isPrefixOf, Bool.and_eq_true, beq_iff_eq] at h
      simp only [ciPrefixOf, Bool.and_eq_true, beq_iff_eq]
      exact ⟨by rw [h.1], ih bs h.2⟩

lemma exactWholeWord_split (kw hay : List Char) (h : exactWholeWord kw hay = true) :
    jsIncludes kw hay = true ∧ wbTest kw hay = true := by
  unfold exactWholeWord at h
  rw [List.any_eq_true] at h
  obtain ⟨i, hi, hcond⟩ := h
  simp only [Bool.and_eq_true] at hcond
  obtain ⟨⟨hpre, hb1⟩, hb2⟩ := hcond
  constructor
  · unfold jsIncludes
    rw [List.any_eq_true]
    exact ⟨i, hi, hpre⟩
  · unfold wbTest
    rw [List.any_eq_true]
    refine ⟨i, hi, ?_⟩
    simp only [Bool.and_eq_true]
    exact ⟨⟨ciPrefixOf_of_isPrefixOf kw _ hpre, hb1⟩, hb2⟩

/-- C4. Keyword scorer contract: the score is the clamped sum of
per-keyword weights (4 twentieths = 0.2 per substring occurrence, a
further 2 twentieths = 0.1 for a word-boundary match); the empty keyword
list scores 0; every score is at most 20 twentieths = 1.0; a message
containing some keyword verbatim scores at least 4 twentieths = 0.2, and
one containing some keyword as an exact whole word scores at least
6 twentieths = 0.3. -/
theorem calculateScore_contract (message : String) (keywords : List String) :
    calculateScore message [] = 0 ∧
    calculateScore message keywords ≤ 20 ∧
    calculateScore message keywords =
      min ((keywords.map fun kw => keywordWeight kw message).sum) 20 ∧
    (∀ kw ∈ keywords, jsIncludes kw.data message.data = true →
      4 ≤ calculateScore message keywords) ∧
    (∀ kw ∈ keywords, exactWholeWord kw.data message.data = true →
      6 ≤ calculateScore message keywords) := by
  have hform : ∀ kws : List String, calculateScore message kws =
      min ((kws.map fun kw => keywordWeight kw message).sum) 20 := by
    intro kws
    unfold calculateScore
    rw [scoreFold_eq message kws 0, Nat.zero_add]
  have hweight : ∀ kw ∈ keywords, keywordWeight kw message ≤
      (keywords.map fun kw => keywordWeight kw message).sum := by
    intro kw hmem
    exact List.le_sum_of_mem (List.mem_map_of_mem _ hmem)
  refine ⟨by simp [hform], by rw [hform]; exact min_le_right _ _, hform keywords, ?_, ?_⟩
  · intro kw hmem hinc
    rw [hform]
    refine le_min ?_ (by omega)
    refine le_trans ?_ (hweight kw hmem)
    unfold keywordWeight
    rw [hinc]
    by_cases h2 : wbTest kw.data message.data <;> simp [h2]
  · intro kw hmem hww
    obtain ⟨hinc, hwb⟩ := exactWholeWord_split _ _ hww
    rw [hform]
    refine le_min ?_ (by omega)
    refine le_trans ?_ (hweight kw hmem)
    unfold keywordWeight
    rw [hinc, hwb]
    simp

/-- Witness for C4 at a concrete input: "my order" contains the keyword
"order" as an exact whole word, so it scores at least 0.3. -/
theorem calculateScore_contract_witness :
    6 ≤ calculateScore "my order" ["order"] :=
  (calculateScore_contract "my order" ["order"]).2.2.2.2 "order" (by decide) (by decide)

lemma routeWith_of_no_continuity (cfg : RouterKeywords) (message : String)
    (context : Option ConversationContext)
    (h : continuityTarget cfg message context = none) :
    routeWith cfg message context = freshClassify cfg (jsLower message) := by
  cases context with
  | none => rfl
  | some c =>
    unfold continuityTarget at h
    unfold routeWith
    by_cases h1 : c.agentType = AgentType.ROUTER
    · simp [h1]
    · by_cases h2 : isRelatedToAgent cfg message c.agentType
      · simp [h1, h2] at h
      · simp [h1, h2]

lemma sortByScoreDesc_three (o b s : ℕ) :
    (sortByScoreDesc [(.ORDER, o), (.BILLING, b), (.SUPPORT, s)]).headD (.SUPPORT, 0) =
      (if b ≤ o ∧ s ≤ o then ((AgentType.ORDER : AgentType), o)
       else if s ≤ b then (AgentType.BILLING, b)
       else (AgentType.SUPPORT, s)) := by
  by_cases hsb : s ≤ b <;> by_cases hbo : b ≤ o <;> by_cases hso : s ≤ o <;>
    simp [sortByScoreDesc, sortInsertDesc, hsb, hbo, hso] <;> omega

/-- C1. Continuity short-circuit: whenever the context carries a
non-meta category and the scorer puts the message above the 0.1
threshold (2 twentieths) on that category's keyword set, `route` returns
that category with confidence exactly 0.9 (18 twentieths) — and the
decision does not depend on the other two categories' keyword sets: any
configuration agreeing on that category's keywords yields the same
decision. -/
theorem router_continuity_short_circuit (cfg : RouterKeywords) (message : String)
    (c : ConversationContext)
    (hmeta : c.agentType ≠ AgentType.ROUTER)
    (hscore : 2 < calculateScore (jsLower message) (keywordsFor cfg c.agentType)) :
    routeWith cfg message (some c) =
      ⟨c.agentType, 18, "Continuing with same agent based on conversation context"⟩ ∧
    ∀ cfg2 : RouterKeywords, keywordsFor cfg2 c.agentType = keywordsFor cfg c.agentType →
      routeWith cfg2 message (some c) = routeWith cfg message (some c) := by
  have hrel : ∀ cfg3 : RouterKeywords,
      keywordsFor cfg3 c.agentType = keywordsFor cfg c.agentType →
      isRelatedToAgent cfg3 message c.agentType = true := by
    intro cfg3 he
    cases hAT : c.agentType with
    | ROUTER => exact absurd hAT hmeta
    | ORDER =>
      rw [hAT] at he hscore
      simp only [keywordsFor] at he hscore
      simp only [isRelatedToAgent, he]
      exact decide_eq_true hscore
    | BILLING =>
      rw [hAT] at he hscore
      simp only [keywordsFor] at he hscore
      simp only [isRelatedToAgent, he]
      exact decide_eq_true hscore
    | SUPPORT =>
      rw [hAT] at he hscore
      simp only [keywordsFor] at he hscore
      simp only [isRelatedToAgent, he]
      exact decide_eq_true hscore
  have hone : routeWith cfg message (some c) =
      ⟨c.agentType, 18, "Continuing with same agent based on conversation context"⟩ := by
    unfold routeWith
    simp [hmeta, hrel cfg rfl]
  refine ⟨hone, fun cfg2 he => ?_⟩
  rw [hone]
  unfold routeWith
  simp [hmeta, hrel cfg2 he]

/-- Witness for C1 at a concrete input: with the order keywords set to
["track"], the message "track it" scores 0.3 > 0.1, so the order
category is continued with confidence 0.9. -/
theorem router_continuity_short_circuit_witness :
    routeWith cexKeywords "track it" (some cexOrderContext) =
      ⟨AgentType.ORDER, 18, "Continuing with same agent based on conversation context"⟩ :=
  (router_continuity_short_circuit cexKeywords "track it" cexOrderContext
    (by decide) (by decide)).1

lemma routeFP_of_no_continuity (message : String)
    (context : Option ConversationContext)
    (h : continuityTargetFP message context = none) :
    routeFP message context = freshClassifyFP (jsLower message) := by
  cases context with
  | none => rfl
  | some c =>
    unfold continuityTargetFP at h
    unfold routeFP
    by_cases h1 : c.agentType = AgentType.ROUTER
    · simp [h1]
    · by_cases h2 : isRelatedToAgentFP message c.agentType
      · simp [h1, h2] at h
      · simp [h1, h2]

/-- Counterexample for C2 as stated: at "cancel modify paybillfeex" the
order and billing keyword sets tie on the maximum score in exact
arithmetic (0.6 each: "cancel" and "modify" as whole words against
"bill", "pay" and "fee" as substrings, support scoring 0), so the
claimed tie-break demands ORDER; but the source accumulates IEEE
doubles, where 0.2+0.1+0.2+0.1 yields exactly the double 0.6 while
0.2+0.2+0.2 yields 0.6000000000000001, so the real route returns
BILLING. -/
theorem route_tiebreak_cex :
    calculateScore (jsLower "cancel modify paybillfeex") orderKeywords =
      calculateScore (jsLower "cancel modify paybillfeex") billingKeywords ∧
    4 ≤ calculateScore (jsLower "cancel modify paybillfeex") orderKeywords ∧
    calculateScore (jsLower "cancel modify paybillfeex") supportKeywords <
      calculateScore (jsLower "cancel modify paybillfeex") orderKeywords ∧
    continuityTarget defaultKeywords "cancel modify paybillfeex" none = none ∧
    (routeFP "cancel modify paybillfeex" none).agentType = AgentType.BILLING := by
  decide

/-- C2 (amended). Fresh classification over the computed scores: when
the continuity short-circuit does not apply and the maximum of the three
computed (binary64-accumulated) category scores is at least the double
0.2, `route` returns the category whose computed score is maximal, with
confidence min(score, 0.95) of the computed score; when two or more
categories tie on the maximum computed score, the category listed first
in the enumeration order ORDER, BILLING, SUPPORT wins. Exact-arithmetic
ties need not be computed-score ties, and then the strictly larger
accumulation wins. -/
theorem route_fresh_classification_fp (message : String) (context : Option ConversationContext)
    (hnc : continuityTargetFP message context = none)
    (hm : dbl02 ≤ max (calculateScoreFP (jsLower message) orderKeywords)
            (max (calculateScoreFP (jsLower message) billingKeywords)
              (calculateScoreFP (jsLower message) supportKeywords))) :
    (routeFP message context).agentType =
      (if calculateScoreFP (jsLower message) billingKeywords ≤
            calculateScoreFP (jsLower message) orderKeywords ∧
          calculateScoreFP (jsLower message) supportKeywords ≤
            calculateScoreFP (jsLower message) orderKeywords
        then AgentType.ORDER
        else if calculateScoreFP (jsLower message) supportKeywords ≤
            calculateScoreFP (jsLower message) billingKeywords
        then AgentType.BILLING
        else AgentType.SUPPORT) ∧
    (routeFP message context).confidence =
      min (max (calculateScoreFP (jsLower message) orderKeywords)
            (max (calculateScoreFP (jsLower message) billingKeywords)
              (calculateScoreFP (jsLower message) supportKeywords))) dbl095 := by
  have hr := routeFP_of_no_continuity message context hnc
  rw [hr]
  unfold freshClassifyFP
  dsimp only
  rw [sortByScoreDesc_three]
  set o := calculateScoreFP (jsLower message) orderKeywords with ho
  set b := calculateScoreFP (jsLower message) billingKeywords with hb
  set s := calculateScoreFP (jsLower message) supportKeywords with hs
  by_cases h1 : b ≤ o ∧ s ≤ o
  · have hmax : max o (max b s) = o := by omega
    rw [hmax] at hm ⊢
    simp only [h1, if_true, if_pos]
    have : ¬ o < dbl02 := by omega
    simp [this]
  · by_cases h2 : s ≤ b
    · have hmax : max o (max b s) = b := by omega
      rw [hmax] at hm ⊢
      simp only [h1, if_false, h2, if_true, if_pos, if_neg]
      have : ¬ b < dbl02 := by omega
      simp [this]
    · have hmax : max o (max b s) = s := by omega
      rw [hmax] at hm ⊢
      simp only [h1, h2, if_false, if_neg]
      have : ¬ s < dbl02 := by omega
      simp [this]

/-- Witness for the amended C2 at a concrete input: "order" reaches only
the order keyword set (0.2+0.1 accumulating to the double
0.30000000000000004), so the fresh classification returns ORDER with the
computed score as confidence. -/
theorem route_fresh_classification_fp_witness :
    (routeFP "order" none).agentType =
      (if calculateScoreFP (jsLower "order") billingKeywords ≤
            calculateScoreFP (jsLower "order") orderKeywords ∧
          calculateScoreFP (jsLower "order") supportKeywords ≤
            calculateScoreFP (jsLower "order") orderKeywords
        then AgentType.ORDER
        else if calculateScoreFP (jsLower "order") supportKeywords ≤
            calculateScoreFP (jsLower "order") billingKeywords
        then AgentType.BILLING
        else AgentType.SUPPORT) ∧
    (routeFP "order" none).confidence =
      min (max (calculateScoreFP (jsLower "order") orderKeywords)
            (max (calculateScoreFP (jsLower "order") billingKeywords)
              (calculateScoreFP (jsLower "order") supportKeywords))) dbl095 :=
  route_fresh_classification_fp "order" none rfl (by decide)

/-- C3. Low-confidence fallback: when the continuity short-circuit does
not apply and the maximum of the three category scores is below 0.2
(4 twentieths), `route` returns SUPPORT with confidence 0.5
(10 twentieths) regardless of which category scored highest. -/
theorem route_low_confidence_fallback (message : String) (context : Option ConversationContext)
    (hnc : continuityTarget defaultKeywords message context = none)
    (hm : max (calculateScore (jsLower message) orderKeywords)
            (max (calculateScore (jsLower message) billingKeywords)
              (calculateScore (jsLower message) supportKeywords)) < 4) :
    route message context =
      ⟨AgentType.SUPPORT, 10, "Low confidence - using support agent as fallback"⟩ := by
  have hr := routeWith_of_no_continuity defaultKeywords message context hnc
  unfold route
  rw [hr]
  unfold freshClassify
  simp only [defaultKeywords]
  rw [sortByScoreDesc_three]
  set o := calculateScore (jsLower message) orderKeywords with ho
  set b := calculateScore (jsLower message) billingKeywords with hb
  set s := calculateScore (jsLower message) supportKeywords with hs
  by_cases h1 : b ≤ o ∧ s ≤ o
  · simp only [h1, if_true, if_pos]
    have : o < 4 := by omega
    simp [this]
  · by_cases h2 : s ≤ b
    · simp only [h1, if_false, h2, if_true, if_pos, if_neg]
      have : b < 4 := by omega
      simp [this]
    · simp only [h1, h2, if_false, if_neg]
      have : s < 4 := by omega
      simp [this]

/-- Witness for C3 at a concrete input: "hello" matches no keyword of
any category, so routing falls back to SUPPORT with confidence 0.5. -/
theorem route_low_confidence_fallback_witness :
    route "hello" none =
      ⟨AgentType.SUPPORT, 10, "Low confidence - using support agent as fallback"⟩ :=
  route_low_confidence_fallback "hello" none rfl (by decide)

/-- C5. Reasoning precedence: the response returned by the coordinator
carries exactly the router's reasoning, overwriting whatever reasoning
the dispatched responder set, for every router, every tool set, every
message and every context. -/
theorem processMessage_reasoning_precedence
    (router : String → Option ConversationContext → RouteDecision)
    (orderT : OrderToolFunctions) (billingT : BillingToolFunctions)
    (supportT : SupportToolFunctions) (message : String) (context : ConversationContext) :
    (processMessage router orderT billingT supportT message context).reasoning =
      some (router message (some context)).reasoning := rfl

/-- C10. Router determinism and idempotence: two calls of the
keyword-based `route` with the same message and the same context yield
identical decisions. -/
theorem route_deterministic (message : String) (context : Option ConversationContext)
    (d1 d2 : RouteDecision)
    (h1 : route message context = d1) (h2 : route message context = d2) :
    d1 = d2 := by rw [← h1, ← h2]

/-- Witness for C10 at a concrete input. -/
theorem route_deterministic_witness : route "hello" none = route "hello" none :=
  route_deterministic "hello" none (route "hello" none) (route "hello" none) rfl rfl

/-- Counterexample for C9 as stated: on failure the LLM router's
reasoning is "LLM routing failed, using fallback", not "classification
failed, using fallback" as claimed. -/
theorem llm_fallback_reasoning_cex :
    llmRoute none ≠ ⟨AgentType.SUPPORT, 10, "classification failed, using fallback"⟩ := by
  decide

/-- C9 (amended). LLM-router fail-open: when the external call or the
JSON parse fails, `route` returns the fixed fallback decision — category
SUPPORT, confidence 0.5 (10 twentieths), reasoning "LLM routing failed,
using fallback" — and no error propagates. -/
theorem llm_router_fail_open :
    llmRoute none = ⟨AgentType.SUPPORT, 10, "LLM routing failed, using fallback"⟩ := rfl

lemma orderHandle_agentType (tools : OrderToolFunctions) (message : String)
    (context : ConversationContext) :
    (orderHandle tools message context).1.agentType = AgentType.ORDER := by
  unfold orderHandle
  dsimp only
  repeat' split
  all_goals rfl

lemma billingHandle_agentType (tools : BillingToolFunctions) (message : String)
    (context : ConversationContext) :
    (billingHandle tools message context).1.agentType = AgentType.BILLING := by
  have hrf : ∀ c0, (billingRefundFallback tools context c0).1.agentType = AgentType.BILLING := by
    intro c0
    unfold billingRefundFallback
    dsimp only
    split <;> rfl
  unfold billingHandle
  dsimp only
  repeat' split
  all_goals first
  | rfl
  | exact hrf _

lemma supportHandle_agentType (tools : SupportToolFunctions) (message : String)
    (context : ConversationContext) :
    (supportHandle tools message context).1.agentType = AgentType.SUPPORT := by
  unfold supportHandle
  dsimp only
  repeat' split
  all_goals rfl

/-- C7. Non-meta response invariant: for every router (hence for every
routing decision, including one carrying the unrecognized meta value),
the coordinator's response carries a category among ORDER, BILLING and
SUPPORT; and a ROUTER-valued decision is dispatched to the support
responder. -/
theorem processMessage_category_invariant
    (router : String → Option ConversationContext → RouteDecision)
    (orderT : OrderToolFunctions) (billingT : BillingToolFunctions)
    (supportT : SupportToolFunctions) (message : String) (context : ConversationContext) :
    ((processMessage router orderT billingT supportT message context).agentType = AgentType.ORDER ∨
     (processMessage router orderT billingT supportT message context).agentType = AgentType.BILLING ∨
     (processMessage router orderT billingT supportT message context).agentType = AgentType.SUPPORT) ∧
    ((router message (some context)).agentType = AgentType.ROUTER →
      processMessage router orderT billingT supportT message context =
        { (supportHandle supportT message
            { context with agentType := (router message (some context)).agentType }).1 with
          reasoning := some (router message (some context)).reasoning }) := by
  constructor
  · unfold processMessage
    dsimp only
    cases h : (router message (some context)).agentType with
    | ROUTER =>
      right; right
      simp only [h]
      exact supportHandle_agentType _ _ _
    | SUPPORT =>
      right; right
      simp only [h]
      exact supportHandle_agentType _ _ _
    | ORDER =>
      left
      simp only [h]
      exact orderHandle_agentType _ _ _
    | BILLING =>
      right; left
      simp only [h]
      exact billingHandle_agentType _ _ _
  · intro h
    unfold processMessage
    dsimp only
    simp only [h]

/-- Witness for C7 at a concrete input: a router that returns the meta
category makes the coordinator fall back to the support responder. -/
theorem processMessage_category_invariant_witness :
    processMessage cexMetaRouter cexOrderTools cexBillingTools cexSupportTools "zzz" cexContext =
      { (supportHandle cexSupportTools "zzz"
          { cexContext with agentType := (cexMetaRouter "zzz" (some cexContext)).agentType }).1 with
        reasoning := some (cexMetaRouter "zzz" (some cexContext)).reasoning } :=
  (processMessage_category_invariant cexMetaRouter cexOrderTools cexBillingTools
    cexSupportTools "zzz" cexContext).2 rfl

/-- Counterexample for C6 as stated: a refund message carrying a refund
id whose lookup fails makes the billing responder perform two tool calls
in one invocation (the failed `checkRefundStatus`, then
`getPaymentHistory`), so "at most one external data-tool call" is
false. -/
theorem billing_two_tool_calls_cex :
    ¬ ((billingHandle cexBillingTools "I want a refund for REF-12" cexContext).2.length ≤ 1) := by
  decide

/-- C6 (amended). Tool-call bound per invocation: the billing and
support responders perform at most two external data-tool calls (a
second read occurs when an id lookup fails and falls through to the
history listing, and the support responder's FAQ search precedes its
history query), and the order responder performs at most one; in
particular at most one write ever happens. -/
theorem handlers_tool_call_bound (orderT : OrderToolFunctions)
    (billingT : BillingToolFunctions) (supportT : SupportToolFunctions)
    (message : String) (context : ConversationContext) :
    (billingHandle billingT message context).2.length ≤ 2 ∧
    (supportHandle supportT message context).2.length ≤ 2 ∧
    (orderHandle orderT message context).2.length ≤ 1 := by
  refine ⟨?_, ?_, ?_⟩
  · have hrf : ∀ c0 : List BillingCall,
        (billingRefundFallback billingT context c0).2.length = c0.length + 1 := by
      intro c0
      unfold billingRefundFallback
      dsimp only
      split <;> simp
    have hif : ∀ c0 : List BillingCall,
        (billingInvoiceFallback billingT context c0).2.length = c0.length + 1 := by
      intro c0
      unfold billingInvoiceFallback
      dsimp only
      simp
    unfold billingHandle
    dsimp only
    repeat' split
    all_goals first
    | (rw [hrf]; simp)
    | (rw [hif]; simp)
    | simp
  · unfold supportHandle
    dsimp only
    repeat' split
    all_goals simp
  · unfold orderHandle
    dsimp only
    repeat' split
    all_goals simp

/-- Counterexample for C8 as stated: "track my package" matches the
tracking sub-intent (which requires an order number) and contains no
occurrence of the `ORD-\d{3}` pattern, yet with a context whose metadata
carries a previous order number the order responder performs a tool call
instead of returning a clarification request. -/
theorem order_identifier_from_context_cex :
    isTrackingRequest (jsLower "track my package") = true ∧
    firstMatchORD "track my package" = none ∧
    (orderHandle cexOrderTools "track my package" cexMetaContext).2 ≠ [] := by
  decide

/-- C8 (amended). Missing-identifier clarification: when the matched
sub-intent requires an order number (in this codebase the identifier
requirement exists only in the order responder: the billing responder
treats refund and invoice ids as optional), the message contains no
`ORD-\d{3}` occurrence, and the context metadata supplies no previous
order number either, the order responder returns the clarification
request of the first matching sub-intent and performs no tool call. -/
theorem order_missing_identifier_clarification (orderT : OrderToolFunctions)
    (message : String) (context : ConversationContext)
    (hmsg : firstMatchORD message = none)
    (hmeta : context.metadata.bind ContextMetadata.lastOrderNumber = none)
    (hintent : (isTrackingRequest (jsLower message) || isStatusRequest (jsLower message) ||
      isCancellationRequest (jsLower message) || isModificationRequest (jsLower message)) = true) :
    (orderHandle orderT message context).2 = [] ∧
    (orderHandle orderT message context).1 =
      (if isTrackingRequest (jsLower message) then trackingClarification
       else if isStatusRequest (jsLower message) then statusClarification
       else if isCancellationRequest (jsLower message) then cancelClarification
       else modifyClarification) := by
  have hres : resolveOrderNumber message context = none := by
    unfold resolveOrderNumber
    rw [hmsg]
    cases hcm : context.metadata with
    | none => rfl
    | some md =>
      rw [hcm] at hmeta
      simpa [Option.bind] using hmeta
  unfold orderHandle
  dsimp only
  rw [hres]
  by_cases h1 : isTrackingRequest (jsLower message)
  · simp [h1]
  · by_cases h2 : isStatusRequest (jsLower message)
    · simp [h1, h2]
    · by_cases h3 : isCancellationRequest (jsLower message)
      · simp [h1, h2, h3]
      · by_cases h4 : isModificationRequest (jsLower message)
        · simp [h1, h2, h3, h4]
        · simp [h1, h2, h3, h4] at hintent

/-- Witness for the amended C8 at a concrete input: "track it" matches
the tracking sub-intent, carries no order number, and the context
metadata has none, so the responder asks for the order number without
calling any tool. -/
theorem order_missing_identifier_clarification_witness :
    (orderHandle cexOrderTools "track it" cexContext).2 = [] ∧
    (orderHandle cexOrderTools "track it" cexContext).1 =
      (if isTrackingRequest (jsLower "track it") then trackingClarification
       else if isStatusRequest (jsLower "track it") then statusClarification
       else if isCancellationRequest (jsLower "track it") then cancelClarification
       else modifyClarification) :=
  order_missing_identifier_clarification cexOrderTools "track it" cexContext
    (by decide) rfl (by decide)
